import Mathlib

/-!
Shallow embedding of the SBTi temperature-score core
(`SBTi/temperature_score.py`): the scenario resolver, the score engine and
its helpers, the scope blender, the scenario capper and the aggregator.
Machine floats are modelled as rationals; pandas null values (`NaN`) in a
column are modelled as `Option`; code that raises a Python exception is
modelled in `Except String`.  External collaborators that are not part of
the embedded file (the configuration constants of `configs.py` and the
weighting primitive of `portfolio_aggregation.py`) enter either as
parameters or as definitions explicitly modelled from the spec.
-/

namespace SBTi

/-- `ScenarioType` enum of `temperature_score.py`. -/
inductive ScenarioType where
  | TARGETS
  | APPROVED_TARGETS
  | HIGHEST_CONTRIBUTORS
  | HIGHEST_CONTRIBUTORS_APPROVED
deriving DecidableEq, Repr

/-- `EngagementType` enum of `temperature_score.py`. -/
inductive EngagementType where
  | SET_TARGETS
  | SET_SBTI_TARGETS
deriving DecidableEq, Repr

/-- `Scenario`: a scenario type paired with an engagement type. -/
structure Scenario where
  scenario_type : ScenarioType
  engagement_type : EngagementType
deriving DecidableEq, Repr

/-- `Scenario.get_score_cap`.  The source returns the floats `2.0`, `1.75`
or `np.NaN`; the undefined (`NaN`) cap is modelled as `none`. -/
def Scenario.get_score_cap (s : Scenario) : Option ℚ :=
  if s.engagement_type = EngagementType.SET_TARGETS then
    some 2
  else if s.scenario_type = ScenarioType.APPROVED_TARGETS ∨
      s.engagement_type = EngagementType.SET_SBTI_TARGETS then
    some (7/4)
  else
    none

/-- `Scenario.get_fallback_score`. -/
def Scenario.get_fallback_score (s : Scenario) (fallback_score : ℚ) : ℚ :=
  if s.scenario_type = ScenarioType.TARGETS then 2 else fallback_score

/-- Python's builtin `min(x, cap)` as used by `cap_scores`: with a `NaN`
cap (`none`) the comparison `cap < x` is false and `x` is returned
unchanged; with a real cap it is the usual minimum. -/
def minCap (x : ℚ) (cap : Option ℚ) : ℚ :=
  match cap with
  | some c => min x c
  | none => x

/-- One row of the target table (`pd.Series` row), with the columns the
embedded pipeline reads and the derived columns it writes.  Nullable
columns are `Option`. -/
structure TargetRow where
  company_id : String
  company_name : String
  target_reference_number : Option String
  intensity_metric : Option String
  scope_category : String
  time_frame : String
  start_year : Int
  end_year : Int
  reduction_ambition : Option ℚ
  ghg_s1s2 : ℚ
  ghg_s3 : ℚ
  engagement_target : Option Bool := none
  sr15 : Option String := none
  slope : Option String := none
  annual_reduction_rate : Option ℚ := none
  regression_param : Option ℚ := none
  regression_intercept : Option ℚ := none
  temperature_score : ℚ := 0
  temperature_results : ℚ := 0
deriving DecidableEq, Repr

/-- One row of the regression reference table, already filtered to the
chosen model id (the constructor filters `regression_model` by the `model`
column once, so the embedded table carries no model column).  The source
column named `variable` is called `varname` here (`variable` is reserved
in Lean). -/
structure RegressionEntry where
  varname : String
  slope : String
  param : ℚ
  intercept : ℚ
deriving DecidableEq, Repr

/-- The fixed local `intensity_mappings` dictionary of
`get_target_mapping`, with `dict.get(key, None)` semantics. -/
def intensity_mappings (metric : String) : Option String :=
  if metric = "Revenue" then some "INT.emKyoto_gdp"
  else if metric = "Product" then some "INT.emKyoto_gdp"
  else if metric = "Cement" then some "INT.emKyoto_gdp"
  else if metric = "Oil" then some "INT.emCO2EI_PE"
  else if metric = "Steel" then some "INT.emKyoto_gdp"
  else if metric = "Aluminum" then some "INT.emKyoto_gdp"
  else if metric = "Power" then some "INT.emCO2EI_elecGen"
  else none

/-- Modelled from the spec: the configuration constant
`VALUE_TARGET_REFERENCE_INTENSITY_BASE` lives in `configs.py`, which is
not part of the embedded sources.  The docstring of `calculate` describes
the reference-number tags as `Int *x*` and `Abs *x*`, and the spec calls
this the "intensity" marker that intensity-based tags begin with. -/
def VALUE_TARGET_REFERENCE_INTENSITY_BASE : String := "Int"

/-- Modelled from the spec: the configuration constant
`VALUE_TARGET_REFERENCE_ABSOLUTE` lives in `configs.py`, which is not part
of the embedded sources.  It is the absolute-target marker substituted for
null reference numbers; per the spec it is mapped to the absolute
Kyoto-gases pathway, i.e. it does not begin with the intensity marker. -/
def VALUE_TARGET_REFERENCE_ABSOLUTE : String := "Abs"

/-- Python's `str.strip()`: drop leading and trailing whitespace.  (An
executable character-list implementation is used so proofs can evaluate
it on literals.) -/
def py_strip (s : String) : String :=
  ⟨((s.data.dropWhile Char.isWhitespace).reverse.dropWhile
      Char.isWhitespace).reverse⟩

/-- Python's `str.startswith(pre)`. -/
def py_startswith (s pre : String) : Bool :=
  pre.data.isPrefixOf s.data

/-- `TemperatureScore.get_target_mapping`, with the reference-number tag
passed as a string (the source reads it from the row and calls `.strip()`
on it, which presupposes it is non-null). -/
def get_target_mapping (trn : String) (metric : Option String) : Option String :=
  if py_startswith (py_strip trn) VALUE_TARGET_REFERENCE_INTENSITY_BASE then
    match metric with
    | some m => intensity_mappings m
    | none => none
  else
    some "Emissions|Kyoto Gases"

/-- `TemperatureScore.get_annual_reduction_rate`.  The guarded
`ZeroDivisionError` (equal start and target year) is re-raised as the
`ValueError` modelled by the `Except.error` branch. -/
def get_annual_reduction_rate (ambition : Option ℚ) (start_year end_year : Int) :
    Except String (Option ℚ) :=
  match ambition with
  | none => Except.ok none
  | some a =>
    if end_year - start_year = 0 then
      Except.error "Couldn't calculate the annual reduction rate because the start and target year are the same"
    else
      Except.ok (some (a / ((end_year - start_year : Int) : ℚ)))

/-- `TemperatureScore.get_regression`.  `slopeMap` is the configured
`SLOPE_MAP` dictionary (from `configs.py`, external); indexing it with an
unmapped time frame raises a `KeyError`, modelled as an error.  `reg` is
the model-filtered regression reference table. -/
def get_regression (reg : List RegressionEntry) (slopeMap : String → Option String)
    (sr15 : Option String) (time_frame : String) :
    Except String (Option ℚ × Option ℚ) :=
  match sr15 with
  | none => Except.ok (none, none)
  | some v =>
    match slopeMap time_frame with
    | none => Except.error "KeyError: time frame not in SLOPE_MAP"
    | some sl =>
      match reg.filter (fun e => e.varname = v ∧ e.slope = sl) with
      | [] => Except.ok (none, none)
      | [e] => Except.ok (some e.param, some e.intercept)
      | _ => Except.error "There is more than one potential regression parameter for this SR15 goal."

/-- `TemperatureScore.get_score`: the score engine over one enriched
row. -/
def get_score (fallback_score : ℚ) (target : TargetRow) : ℚ × ℚ :=
  match target.regression_param, target.regression_intercept,
      target.annual_reduction_rate with
  | some p, some i, some r => (max (p * r * 100 + i) 0, 0)
  | _, _, _ => (fallback_score, 1)

/-- One grouped-mean row of `company_data` in `_calculate_company_score`
(the mean over a (company, time-frame, scope-category) group of the
emissions, score and default-flag columns). -/
structure GroupEntry where
  ghg_s1s2 : ℚ
  ghg_s3 : ℚ
  temperature_score : ℚ
  temperature_results : ℚ
deriving DecidableEq, Repr

/-- `TemperatureScore.get_ghc_temperature_score`: the scope blender.
`lookup` is the grouped `company_data.loc` indexer; a missing
(company, time-frame, scope-category) key raises, modelled as an error.
The share computation `s3 / (s1s2 + s3)` raises `ZeroDivisionError` when
the denominator is zero, which the source converts to the `ValueError`
modelled by the corresponding `Except.error` branch. -/
def get_ghc_temperature_score (row : TargetRow)
    (lookup : String → String → String → Option GroupEntry) :
    Except String (ℚ × ℚ) :=
  if row.scope_category ≠ "s1s2s3" then
    Except.ok (row.temperature_score, row.temperature_results)
  else
    match lookup row.company_id row.time_frame "s1s2",
        lookup row.company_id row.time_frame "s3" with
    | some s1s2, some s3 =>
      if s1s2.ghg_s1s2 + s3.ghg_s3 = 0 then
        Except.error "The mean of the S1+S2 plus the S3 emissions is zero"
      else if s3.ghg_s3 / (s1s2.ghg_s1s2 + s3.ghg_s3) < (0.4 : ℚ) then
        Except.ok (s1s2.temperature_score, s1s2.temperature_results)
      else
        Except.ok
          ((s1s2.temperature_score * s1s2.ghg_s1s2 +
              s3.temperature_score * s3.ghg_s3) / (s1s2.ghg_s1s2 + s3.ghg_s3),
            (s1s2.temperature_results * s1s2.ghg_s1s2 +
              s3.temperature_results * s3.ghg_s3) / (s1s2.ghg_s1s2 + s3.ghg_s3))
    | _, _ => Except.error "KeyError: grouped company row missing"

/-- One record of the `contributions` list emitted by
`_get_aggregations`.  Modelled from the spec: the projection
`CONTRIBUTION_COLUMNS` is a configuration constant of `configs.py`, which
is not part of the embedded sources; per the spec it is the "fixed
reporting column set", and `cap_scores` reads the company name out of each
contribution record, so the projection contains at least the company name,
the score and the two contribution columns. -/
structure ContributionRecord where
  company_name : String
  temperature_score : ℚ
  contribution_relative : ℚ
  contribution : ℚ
deriving DecidableEq, Repr

/-- Descending order on relative contribution: the sort key of
`sort_values(CONTRIBUTION_RELATIVE, ascending=False)`. -/
def contribGE (a b : ContributionRecord) : Prop :=
  b.contribution_relative ≤ a.contribution_relative

instance : DecidableRel contribGE := fun a b =>
  inferInstanceAs (Decidable (b.contribution_relative ≤ a.contribution_relative))

instance : IsTotal ContributionRecord contribGE :=
  ⟨fun a b => (le_total b.contribution_relative a.contribution_relative)⟩

instance : IsTrans ContributionRecord contribGE :=
  ⟨fun _ _ _ h h' => le_trans h' h⟩

/-- The `{score, contributions}` dictionary returned (first) by
`_get_aggregations`. -/
structure AggAll where
  score : ℚ
  contributions : List ContributionRecord
deriving DecidableEq, Repr

/-- The per-(time-frame, scope-category) cell stored by
`aggregate_scores` for a non-empty slice: the `"all"` aggregation and the
`influence_percentage` figure.  (The optional per-group sub-aggregations
only exist when grouping columns are configured; the embedded pipeline
covers the default empty grouping, under which that block is skipped and
which is the configuration `cap_scores` itself relies on only through the
`"all"` entry.) -/
structure CellResult where
  all : AggAll
  influence_percentage : ℚ
deriving DecidableEq, Repr

/-- The external weighting primitive
`PortfolioAggregation._calculate_aggregate_score` (from
`portfolio_aggregation.py`, not part of the embedded sources): given a
column selector and a table slice it returns the per-row weighted
contributions of that column, one per row.  The aggregator and capper are
parametric in it. -/
def AggFn : Type := (TargetRow → ℚ) → List TargetRow → List ℚ

/-- Modelled from the spec: an equal-weighted instance of the weighting
primitive (the spec's weighting-method enumeration includes
"equal-weighted"), used to instantiate witnesses: each row contributes
`column value / number of rows`. -/
def equalWeightFn : AggFn :=
  fun col rows => rows.map (fun r => col r / (rows.length : ℚ))

/-- `TemperatureScore._get_aggregations` over one cell slice: computes the
per-row weighted scores, the relative contributions
`weighted / (sum / 100)`, and the `{score, contributions}` record whose
contribution list is the slice sorted by descending relative
contribution; returns the record together with the relative and absolute
contribution columns. -/
def get_aggregations (aggFn : AggFn) (data : List TargetRow) :
    AggAll × List ℚ × List ℚ :=
  let weighted := aggFn (fun r => r.temperature_score) data
  let rel := weighted.map (fun w => w / (weighted.sum / 100))
  let recs := (data.zip (rel.zip weighted)).map (fun p =>
    { company_name := p.1.company_name
      temperature_score := p.1.temperature_score
      contribution_relative := p.2.1
      contribution := p.2.2 : ContributionRecord })
  ({ score := weighted.sum
     contributions := recs.insertionSort contribGE }, rel, weighted)

/-- The loop body of `aggregate_scores` for one
(time-frame, scope-category) cell: the empty slice yields the explicit
`none` marker (`None` in the source), a non-empty slice yields its
`"all"` aggregation and influence percentage. -/
def cell_value (aggFn : AggFn) (data : List TargetRow) (tf sc : String) :
    Option CellResult :=
  let filtered := data.filter (fun r =>
    r.time_frame = tf ∧ r.scope_category = sc)
  if filtered.isEmpty then none
  else some
    { all := (get_aggregations aggFn filtered).1
      influence_percentage :=
        (aggFn (fun r => r.temperature_results) filtered).sum * 100 }

/-- `TemperatureScore.aggregate_scores`: one entry per requested (or
data-derived) time frame, holding one entry per requested (or
data-derived) scope category, each holding its cell value. -/
def aggregate_scores (aggFn : AggFn) (data : List TargetRow)
    (time_frames scope_categories : List String) :
    List (String × List (String × Option CellResult)) :=
  (if time_frames.isEmpty then (data.map (·.time_frame)).dedup
    else time_frames).map (fun tf =>
      (tf, (if scope_categories.isEmpty then
          (data.map (·.scope_category)).dedup else scope_categories).map
        (fun sc => (sc, cell_value aggFn data tf sc))))

/-- Two-level dictionary indexing `aggregations[time_frame][scope]` on the
result of `aggregate_scores`. -/
def lookupCell (aggs : List (String × List (String × Option CellResult)))
    (tf sc : String) : Option (Option CellResult) :=
  match aggs.lookup tf with
  | none => none
  | some inner => inner.lookup sc

/-- The masked clamp `scores.loc[mask, score] = ...apply(min(x, cap))` of
the `HIGHEST_CONTRIBUTORS` branch, for one top contributor: every row
matching the contributor's name in the given (time-frame, scope-category)
cell has its score clamped. -/
def capCompanyRows (cap : Option ℚ) (tf sc name : String)
    (rows : List TargetRow) : List TargetRow :=
  rows.map (fun r =>
    if r.company_name = name ∧ r.scope_category = sc ∧ r.time_frame = tf then
      { r with temperature_score := minCap r.temperature_score cap }
    else r)

/-- The body of the `HIGHEST_CONTRIBUTORS` loop for one
(time-frame, scope-category) pair: index
`aggregations[time_frame][scope]['all']['contributions']` (a missing time
frame key raises `KeyError`, an empty cell's `None` raises `TypeError`),
take the top `min(10, len)` contributors and clamp each one's rows. -/
def capHCStep (s : Scenario)
    (aggs : List (String × List (String × Option CellResult)))
    (tf sc : String) (rows : List TargetRow) :
    Except String (List TargetRow) :=
  match lookupCell aggs tf sc with
  | none => Except.error "KeyError: time frame missing from aggregations"
  | some none => Except.error "TypeError: NoneType cell is not subscriptable"
  | some (some cell) =>
    let k := min 10 cell.all.contributions.length
    let names := (cell.all.contributions.take k).map (·.company_name)
    Except.ok (names.foldl (fun rs name =>
      capCompanyRows s.get_score_cap tf sc name rs) rows)

/-- `TemperatureScore.cap_scores`.  `vtf` is the configured fixed
time-frame list `VALUE_TIME_FRAMES` (from `configs.py`, external).  The
`HIGHEST_CONTRIBUTORS` branch aggregates once, then iterates the fixed
time frames and the scope categories present in the data; its dictionary
indexing can raise, so the result is in `Except`.  The other branches are
total. -/
def cap_scores (scenario : Option Scenario) (aggFn : AggFn)
    (vtf : List String) (scores : List TargetRow) :
    Except String (List TargetRow) :=
  match scenario with
  | none => Except.ok scores
  | some s =>
    match s.scenario_type with
    | ScenarioType.APPROVED_TARGETS =>
      Except.ok (scores.map (fun r =>
        if r.target_reference_number.isSome then
          { r with temperature_score := minCap r.temperature_score s.get_score_cap }
        else r))
    | ScenarioType.HIGHEST_CONTRIBUTORS =>
      let aggs := aggregate_scores aggFn scores [] []
      let uniqScopes := (scores.map (·.scope_category)).dedup
      (vtf.flatMap (fun tf => uniqScopes.map (fun sc => (tf, sc)))).foldlM
        (fun rs p => capHCStep s aggs p.1 p.2 rs) scores
    | ScenarioType.HIGHEST_CONTRIBUTORS_APPROVED =>
      Except.ok (((scores.map (fun r =>
        { r with engagement_target := some (r.engagement_target = some true) })).map
          (fun r =>
            if r.engagement_target = some true then
              { r with temperature_score := minCap r.temperature_score s.get_score_cap }
            else r)))
    | ScenarioType.TARGETS => Except.ok scores

/-- `TemperatureScore._merge_regression`: assign each row its slope
category via `SLOPE_MAP.get(time_frame, None)`, then left-join with the
model-filtered regression table on (slope, SR15 variable): a row with no
match keeps null parameter and intercept, a row with k matches is
duplicated k times with each match's parameter and intercept (pandas
`how="left"` merge).  A null SR15 or slope key matches nothing. -/
def merge_regression (slopeMap : String → Option String)
    (reg : List RegressionEntry) (rows : List TargetRow) : List TargetRow :=
  rows.flatMap (fun r =>
    match reg.filter (fun e =>
        slopeMap r.time_frame = some e.slope ∧ r.sr15 = some e.varname) with
    | [] => [{ r with slope := slopeMap r.time_frame
                      regression_param := none
                      regression_intercept := none }]
    | ms => ms.map (fun e =>
        { r with slope := slopeMap r.time_frame
                 regression_param := some e.param
                 regression_intercept := some e.intercept }))

/-- The null-replacement assignment of `_prepare_data` on one row:
`data[TARGET_REFERENCE_NUMBER].replace({np.nan: VALUE_TARGET_REFERENCE_ABSOLUTE})`. -/
def replace_trn_row (r : TargetRow) : TargetRow :=
  { r with
    target_reference_number :=
      some (r.target_reference_number.getD VALUE_TARGET_REFERENCE_ABSOLUTE) }

/-- The null-replacement stage of `_prepare_data` over the table. -/
def replace_trn_stage (rows : List TargetRow) : List TargetRow :=
  rows.map replace_trn_row

/-- The SR15-mapping assignment of `_prepare_data` on one row (the
row-wise `apply` of `get_target_mapping`).  It runs after the
replacement, so the reference number is non-null there; a null at this
point would raise in the source and is mapped to `none` here, but cannot
occur in the pipeline. -/
def sr15_row (r : TargetRow) : TargetRow :=
  { r with
    sr15 :=
      match r.target_reference_number with
      | some s => get_target_mapping s r.intensity_metric
      | none => none }

/-- The SR15-mapping stage of `_prepare_data` over the table. -/
def sr15_stage (rows : List TargetRow) : List TargetRow :=
  rows.map sr15_row

/-- The annual-reduction-rate assignment of `_prepare_data` on one row
(the row-wise `apply` of `get_annual_reduction_rate`, which can raise). -/
def rate_row (r : TargetRow) : Except String TargetRow := do
  let a ← get_annual_reduction_rate r.reduction_ambition r.start_year r.end_year
  pure { r with annual_reduction_rate := a }

/-- The annual-reduction-rate stage of `_prepare_data` over the table;
the first failing row aborts the stage, as the row-wise `apply` does. -/
def reduction_rate_stage (rows : List TargetRow) :
    Except String (List TargetRow) :=
  rows.mapM rate_row

/-- The scoring assignment of `_prepare_data` on one row (the row-wise
`apply` of `get_score`, written into the score and result columns). -/
def score_row (fallback_score : ℚ) (r : TargetRow) : TargetRow :=
  { r with temperature_score := (get_score fallback_score r).1
           temperature_results := (get_score fallback_score r).2 }

/-- The scoring stage of `_prepare_data` over the table. -/
def score_stage (fallback_score : ℚ) (rows : List TargetRow) : List TargetRow :=
  rows.map (score_row fallback_score)

/-- `TemperatureScore._prepare_data`: replace null target-reference
numbers by the absolute marker, derive the SR15 mapping and the annual
reduction rate (which can raise), merge the regression parameters, apply
the score engine row-wise, then cap. -/
def prepare_data (fallback_score : ℚ) (scenario : Option Scenario)
    (slopeMap : String → Option String) (reg : List RegressionEntry)
    (aggFn : AggFn) (vtf : List String) (rows : List TargetRow) :
    Except String (List TargetRow) := do
  let r3 ← reduction_rate_stage (sr15_stage (replace_trn_stage rows))
  let r5 := score_stage fallback_score (merge_regression slopeMap reg r3)
  cap_scores scenario aggFn vtf r5

/-- A concrete target row used to instantiate the row-level theorems. -/
def baseRow : TargetRow :=
  { company_id := "US001"
    company_name := "Acme"
    target_reference_number := some "Abs 1"
    intensity_metric := none
    scope_category := "s1s2"
    time_frame := "short"
    start_year := 2020
    end_year := 2030
    reduction_ambition := some (1/2)
    ghg_s1s2 := 100
    ghg_s3 := 50 }

/-- A regression reference table holding two rows with the same
(variable, slope-category) pair. -/
def regDup : List RegressionEntry :=
  [{ varname := "Emissions|Kyoto Gases", slope := "slope5", param := 1, intercept := 2 },
   { varname := "Emissions|Kyoto Gases", slope := "slope5", param := 3, intercept := 4 }]

/-- A concrete slope map sending the short time frame to a slope
category. -/
def slopeMapSample (tf : String) : Option String :=
  if tf = "short" then some "slope5" else none

/-- A grouped-company lookup whose s1s2 and s3 rows both carry zero
emissions (zero combined denominator). -/
def zeroEmissionsLookup (_cid _tf : String) (cat : String) : Option GroupEntry :=
  if cat = "s1s2" then some { ghg_s1s2 := 0, ghg_s3 := 0, temperature_score := 1, temperature_results := 0 }
  else if cat = "s3" then some { ghg_s1s2 := 0, ghg_s3 := 0, temperature_score := 2, temperature_results := 0 }
  else none

/-- A grouped-company lookup with a negative S1S2 emissions figure and a
positive combined total: s1s2 score 0 with emissions −1, s3 score 1 with
emissions 2. -/
def negEmissionsLookup (_cid _tf : String) (cat : String) : Option GroupEntry :=
  if cat = "s1s2" then some { ghg_s1s2 := -1, ghg_s3 := 0, temperature_score := 0, temperature_results := 0 }
  else if cat = "s3" then some { ghg_s1s2 := 0, ghg_s3 := 2, temperature_score := 1, temperature_results := 0 }
  else none

/-- A grouped-company lookup with nonnegative emissions: s1s2 score 1
with emissions 60, s3 score 3 with emissions 40. -/
def posEmissionsLookup (_cid _tf : String) (cat : String) : Option GroupEntry :=
  if cat = "s1s2" then some { ghg_s1s2 := 60, ghg_s3 := 0, temperature_score := 1, temperature_results := 0 }
  else if cat = "s3" then some { ghg_s1s2 := 0, ghg_s3 := 40, temperature_score := 3, temperature_results := 1 }
  else none

/-- `baseRow` with the combined scope category. -/
def s1s2s3Row : TargetRow := { baseRow with scope_category := "s1s2s3" }

/-- Row-wise comparison of temperature scores: the row on the left scores
at most the row on the right. -/
def scoreLE (a b : TargetRow) : Prop :=
  a.temperature_score ≤ b.temperature_score

/-- `baseRow` with a null target-reference-number and a null reduction
ambition. -/
def c9Row : TargetRow :=
  { baseRow with target_reference_number := none, reduction_ambition := none }

end SBTi

namespace SBTi

/-- Claim C1: for every target row, `get_score` returns
`(fallback_score, 1)` when the row's regression parameter, regression
intercept, or annual reduction rate is null, and otherwise returns
`(max(parameter * reduction_rate * 100 + intercept, 0), 0)`. -/
theorem claim_C1 (fallback : ℚ) (row : TargetRow) :
    ((row.regression_param = none ∨ row.regression_intercept = none ∨
        row.annual_reduction_rate = none) →
      get_score fallback row = (fallback, 1)) ∧
    (∀ p i r, row.regression_param = some p → row.regression_intercept = some i →
      row.annual_reduction_rate = some r →
      get_score fallback row = (max (p * r * 100 + i) 0, 0)) := by
  constructor
  · intro h
    rcases hp : row.regression_param with _ | p <;>
      rcases hi : row.regression_intercept with _ | i <;>
      rcases hr : row.annual_reduction_rate with _ | r <;>
      simp_all [get_score]
  · intro p i r hp hi hr
    simp [get_score, hp, hi, hr]

/-- Witness for C1: a row with a null parameter scores the fallback with
the default flag set, and a fully populated row scores the regression
formula. -/
theorem claim_C1_witness :
    get_score 3 { baseRow with regression_param := none } = (3, 1) ∧
    get_score 3 { baseRow with
        regression_param := some 1
        regression_intercept := some 2
        annual_reduction_rate := some (1/100) } =
      (max ((1 : ℚ) * (1/100) * 100 + 2) 0, 0) :=
  ⟨(claim_C1 3 _).1 (Or.inl rfl), (claim_C1 3 _).2 1 2 (1/100) rfl rfl rfl⟩

/-- Claim C5: the annual-reduction-rate calculator returns none when the
reduction-ambition field is null, returns ambition divided by
(target_year − start_year) otherwise, and raises a fatal domain error
(not none) when start and target year coincide. -/
theorem claim_C5 (a : ℚ) (sy ey : Int) :
    get_annual_reduction_rate none sy ey = Except.ok none ∧
    (sy ≠ ey → get_annual_reduction_rate (some a) sy ey =
      Except.ok (some (a / ((ey - sy : Int) : ℚ)))) ∧
    (sy = ey → get_annual_reduction_rate (some a) sy ey =
      Except.error "Couldn't calculate the annual reduction rate because the start and target year are the same") := by
  refine ⟨rfl, ?_, ?_⟩
  · intro h
    have hne : ey - sy ≠ 0 := fun h0 => h (by omega)
    simp [get_annual_reduction_rate, hne]
  · intro h
    subst h
    simp [get_annual_reduction_rate]

/-- Witness for C5: a null ambition yields none, a 2020→2030 target
divides by the ten-year window, a 2020→2020 target raises. -/
theorem claim_C5_witness :
    get_annual_reduction_rate none 2020 2030 = Except.ok none ∧
    get_annual_reduction_rate (some (1/2)) 2020 2030 =
      Except.ok (some ((1/2 : ℚ) / ((2030 - 2020 : Int) : ℚ))) ∧
    get_annual_reduction_rate (some (1/2)) 2020 2020 =
      Except.error "Couldn't calculate the annual reduction rate because the start and target year are the same" :=
  ⟨(claim_C5 (1/2) 2020 2030).1,
   (claim_C5 (1/2) 2020 2030).2.1 (by decide),
   (claim_C5 (1/2) 2020 2020).2.2 rfl⟩

/-- Claim C3: with more than one reference row matching the (variable,
slope-category) pair, `get_regression` raises the fatal "more than one
potential regression parameter" error; zero matches or a null pathway
variable yield (none, none); exactly one match yields its
(parameter, intercept). -/
theorem claim_C3 (reg : List RegressionEntry) (slopeMap : String → Option String)
    (v tf sl : String) (hsl : slopeMap tf = some sl) :
    get_regression reg slopeMap none tf = Except.ok (none, none) ∧
    (reg.filter (fun e => e.varname = v ∧ e.slope = sl) = [] →
      get_regression reg slopeMap (some v) tf = Except.ok (none, none)) ∧
    (∀ e, reg.filter (fun e => e.varname = v ∧ e.slope = sl) = [e] →
      get_regression reg slopeMap (some v) tf =
        Except.ok (some e.param, some e.intercept)) ∧
    (2 ≤ (reg.filter (fun e => e.varname = v ∧ e.slope = sl)).length →
      get_regression reg slopeMap (some v) tf =
        Except.error "There is more than one potential regression parameter for this SR15 goal.") := by
  refine ⟨rfl, ?_, ?_, ?_⟩
  · intro h
    simp only [get_regression, hsl]
    rw [h]
  · intro e h
    simp only [get_regression, hsl]
    rw [h]
  · intro h
    rcases hf : reg.filter (fun e => e.varname = v ∧ e.slope = sl) with
      _ | ⟨e₁, _ | ⟨e₂, rest⟩⟩
    · rw [hf] at h; simp at h
    · rw [hf] at h; simp at h
    · simp only [get_regression, hsl]
      rw [hf]

/-- Witness for C3: a two-row duplicate reference table raises the fatal
error. -/
theorem claim_C3_witness :
    get_regression regDup slopeMapSample (some "Emissions|Kyoto Gases") "short" =
      Except.error "There is more than one potential regression parameter for this SR15 goal." :=
  (claim_C3 regDup slopeMapSample "Emissions|Kyoto Gases" "short" "slope5"
    rfl).2.2.2 (by decide)

/-- Claim C6: an S1S2S3 row whose company's S1S2 emissions plus S3
emissions equal zero makes the scope blender raise the fatal "mean
emissions is zero" domain error instead of producing a score. -/
theorem claim_C6 (row : TargetRow)
    (lookup : String → String → String → Option GroupEntry)
    (s1s2 s3 : GroupEntry)
    (hsc : row.scope_category = "s1s2s3")
    (h1 : lookup row.company_id row.time_frame "s1s2" = some s1s2)
    (h3 : lookup row.company_id row.time_frame "s3" = some s3)
    (hz : s1s2.ghg_s1s2 + s3.ghg_s3 = 0) :
    get_ghc_temperature_score row lookup =
      Except.error "The mean of the S1+S2 plus the S3 emissions is zero" := by
  simp [get_ghc_temperature_score, hsc, h1, h3, hz]

/-- Witness for C6: a combined-scope row over a company with zero S1S2
and S3 emissions raises. -/
theorem claim_C6_witness :
    get_ghc_temperature_score s1s2s3Row zeroEmissionsLookup =
      Except.error "The mean of the S1+S2 plus the S3 emissions is zero" :=
  claim_C6 s1s2s3Row zeroEmissionsLookup
    { ghg_s1s2 := 0, ghg_s3 := 0, temperature_score := 1, temperature_results := 0 }
    { ghg_s1s2 := 0, ghg_s3 := 0, temperature_score := 2, temperature_results := 0 }
    rfl rfl rfl (by norm_num)

/-- Claim C8: `get_score_cap` returns 2.0 for the SET_TARGETS engagement
type, else 1.75 for the APPROVED_TARGETS scenario type or the
SET_SBTI_TARGETS engagement type, else not-a-number (modelled `none`);
`get_fallback_score` returns 2.0 for the TARGETS scenario type and the
caller-supplied default otherwise. -/
theorem claim_C8 (s : Scenario) (d : ℚ) :
    s.get_score_cap =
      (if s.engagement_type = EngagementType.SET_TARGETS then some 2
        else if s.scenario_type = ScenarioType.APPROVED_TARGETS ∨
            s.engagement_type = EngagementType.SET_SBTI_TARGETS then some (1.75 : ℚ)
        else none) ∧
    s.get_fallback_score d =
      (if s.scenario_type = ScenarioType.TARGETS then 2 else d) := by
  constructor
  · unfold Scenario.get_score_cap
    norm_num
  · rfl

/-- An emissions-weighted average of two values with nonnegative weights
and positive total weight lies between the two values. -/
theorem weighted_avg_bound (a b w₁ w₂ : ℚ) (h₁ : 0 ≤ w₁) (h₂ : 0 ≤ w₂)
    (hpos : 0 < w₁ + w₂) :
    min a b ≤ (a * w₁ + b * w₂) / (w₁ + w₂) ∧
    (a * w₁ + b * w₂) / (w₁ + w₂) ≤ max a b := by
  constructor
  · rw [le_div_iff₀ hpos]
    have t₁ : 0 ≤ (a - min a b) * w₁ :=
      mul_nonneg (sub_nonneg.mpr (min_le_left a b)) h₁
    have t₂ : 0 ≤ (b - min a b) * w₂ :=
      mul_nonneg (sub_nonneg.mpr (min_le_right a b)) h₂
    nlinarith
  · rw [div_le_iff₀ hpos]
    have t₁ : 0 ≤ (max a b - a) * w₁ :=
      mul_nonneg (sub_nonneg.mpr (le_max_left a b)) h₁
    have t₂ : 0 ≤ (max a b - b) * w₂ :=
      mul_nonneg (sub_nonneg.mpr (le_max_right a b)) h₂
    nlinarith

/-- Counterexample to claim C4 as stated: a company whose grouped S1S2
row carries a negative S1S2 emissions figure (−1) and whose S3 row
carries 2, so the combined emissions are positive (1) and the S3 share
(2) exceeds 0.4, yet the blended score 2 exceeds
max(s1s2_score, s3_score) = max 0 1 = 1. -/
theorem claim_C4_counterexample :
    (0 : ℚ) < (-1) + 2 ∧
    ¬ ((2 : ℚ) / ((-1) + 2) < 0.4) ∧
    get_ghc_temperature_score s1s2s3Row negEmissionsLookup = Except.ok (2, 0) ∧
    ¬ ((2 : ℚ) ≤ max (0 : ℚ) 1) := by
  refine ⟨by norm_num, by norm_num, ?_, by norm_num⟩
  have h1 : negEmissionsLookup "US001" "short" "s1s2" =
      some { ghg_s1s2 := -1, ghg_s3 := 0, temperature_score := 0, temperature_results := 0 } := rfl
  have h3 : negEmissionsLookup "US001" "short" "s3" =
      some { ghg_s1s2 := 0, ghg_s3 := 2, temperature_score := 1, temperature_results := 0 } := rfl
  norm_num [get_ghc_temperature_score, s1s2s3Row, baseRow, h1, h3]

/-- Claim C4, amended: for every S1S2S3 row whose company has both an
S1S2 and an S3 grouped row with nonnegative emissions figures and
positive combined emissions, the blended score equals the S1S2 score
exactly when the S3 share is below 0.4, and otherwise is the
emissions-weighted average, which lies between the two scores; rows whose
scope-category is not S1S2S3 are returned unchanged. -/
theorem claim_C4_amended (row : TargetRow)
    (lookup : String → String → String → Option GroupEntry)
    (s1s2 s3 : GroupEntry)
    (hsc : row.scope_category = "s1s2s3")
    (h1 : lookup row.company_id row.time_frame "s1s2" = some s1s2)
    (h3 : lookup row.company_id row.time_frame "s3" = some s3)
    (hw1 : 0 ≤ s1s2.ghg_s1s2) (hw2 : 0 ≤ s3.ghg_s3)
    (hpos : 0 < s1s2.ghg_s1s2 + s3.ghg_s3) :
    (s3.ghg_s3 / (s1s2.ghg_s1s2 + s3.ghg_s3) < 0.4 →
      get_ghc_temperature_score row lookup =
        Except.ok (s1s2.temperature_score, s1s2.temperature_results)) ∧
    (¬ s3.ghg_s3 / (s1s2.ghg_s1s2 + s3.ghg_s3) < 0.4 →
      get_ghc_temperature_score row lookup = Except.ok
        ((s1s2.temperature_score * s1s2.ghg_s1s2 +
            s3.temperature_score * s3.ghg_s3) / (s1s2.ghg_s1s2 + s3.ghg_s3),
          (s1s2.temperature_results * s1s2.ghg_s1s2 +
            s3.temperature_results * s3.ghg_s3) / (s1s2.ghg_s1s2 + s3.ghg_s3)) ∧
      min s1s2.temperature_score s3.temperature_score ≤
        (s1s2.temperature_score * s1s2.ghg_s1s2 +
          s3.temperature_score * s3.ghg_s3) / (s1s2.ghg_s1s2 + s3.ghg_s3) ∧
      (s1s2.temperature_score * s1s2.ghg_s1s2 +
          s3.temperature_score * s3.ghg_s3) / (s1s2.ghg_s1s2 + s3.ghg_s3) ≤
        max s1s2.temperature_score s3.temperature_score) ∧
    (∀ r : TargetRow, r.scope_category ≠ "s1s2s3" →
      get_ghc_temperature_score r lookup =
        Except.ok (r.temperature_score, r.temperature_results)) := by
  refine ⟨?_, ?_, ?_⟩
  · intro hlt
    simp [get_ghc_temperature_score, hsc, h1, h3, hpos.ne', hlt]
  · intro hge
    refine ⟨?_, ?_, ?_⟩
    · simp [get_ghc_temperature_score, hsc, h1, h3, hpos.ne', hge]
    · exact (weighted_avg_bound _ _ _ _ hw1 hw2 hpos).1
    · exact (weighted_avg_bound _ _ _ _ hw1 hw2 hpos).2
  · intro r hr
    simp [get_ghc_temperature_score, hr]

/-- Witness for the amended C4: emissions 60 and 40 with scores 1 and 3
give the S3 share 0.4, so the blended score is the weighted average
(1·60 + 3·40)/100 and sits between 1 and 3. -/
theorem claim_C4_witness :
    get_ghc_temperature_score s1s2s3Row posEmissionsLookup = Except.ok
      (((1 : ℚ) * 60 + 3 * 40) / (60 + 40), ((0 : ℚ) * 60 + 1 * 40) / (60 + 40)) ∧
    min (1 : ℚ) 3 ≤ ((1 : ℚ) * 60 + 3 * 40) / (60 + 40) ∧
    ((1 : ℚ) * 60 + 3 * 40) / (60 + 40) ≤ max (1 : ℚ) 3 := by
  have h := (claim_C4_amended s1s2s3Row posEmissionsLookup
    { ghg_s1s2 := 60, ghg_s3 := 0, temperature_score := 1, temperature_results := 0 }
    { ghg_s1s2 := 0, ghg_s3 := 40, temperature_score := 3, temperature_results := 1 }
    rfl rfl rfl (by norm_num) (by norm_num) (by norm_num)).2.1 (by norm_num)
  exact ⟨h.1, h.2.1, h.2.2⟩

/-- Python's `min(x, cap)` never exceeds `x`, also for the `NaN` cap. -/
theorem minCap_le (x : ℚ) (cap : Option ℚ) : minCap x cap ≤ x := by
  cases cap with
  | none => exact le_refl x
  | some c => exact min_le_left x c

/-- Mapping a row transformer that never raises the score yields a
row-wise score-nonincreasing table. -/
theorem forall₂_scoreLE_map (f : TargetRow → TargetRow)
    (hf : ∀ r, scoreLE (f r) r) (l : List TargetRow) :
    List.Forall₂ scoreLE (l.map f) l :=
  List.forall₂_map_left_iff.mpr (List.forall₂_same.mpr (fun x _ => hf x))

/-- Row-wise score comparison is transitive over tables. -/
theorem forall₂_scoreLE_trans {l₁ l₂ l₃ : List TargetRow}
    (h₁ : List.Forall₂ scoreLE l₁ l₂) (h₂ : List.Forall₂ scoreLE l₂ l₃) :
    List.Forall₂ scoreLE l₁ l₃ := by
  induction h₁ generalizing l₃ with
  | nil =>
    cases h₂
    exact List.Forall₂.nil
  | cons h t ih =>
    cases h₂ with
    | cons h' t' => exact List.Forall₂.cons (le_trans h h') (ih t')

/-- Clamping one contributor's rows never raises a score. -/
theorem capCompanyRows_le (cap : Option ℚ) (tf sc name : String)
    (rs : List TargetRow) :
    List.Forall₂ scoreLE (capCompanyRows cap tf sc name rs) rs := by
  unfold capCompanyRows
  apply forall₂_scoreLE_map
  intro r
  by_cases h : r.company_name = name ∧ r.scope_category = sc ∧ r.time_frame = tf
  · simp [scoreLE, h, minCap_le]
  · simp [scoreLE, h]

/-- Clamping the rows of a list of contributors never raises a score. -/
theorem capNamesFold_le (cap : Option ℚ) (tf sc : String) :
    ∀ (names : List String) (rs : List TargetRow),
      List.Forall₂ scoreLE
        (names.foldl (fun rs n => capCompanyRows cap tf sc n rs) rs) rs := by
  intro names
  induction names with
  | nil =>
    intro rs
    exact List.forall₂_same.mpr (fun x _ => le_refl _)
  | cons n ns ih =>
    intro rs
    rw [List.foldl_cons]
    exact forall₂_scoreLE_trans (ih _) (capCompanyRows_le cap tf sc n rs)

/-- One HIGHEST_CONTRIBUTORS cell step never raises a score when it
succeeds. -/
theorem capHCStep_le (s : Scenario)
    (aggs : List (String × List (String × Option CellResult)))
    (tf sc : String) (rs out : List TargetRow)
    (h : capHCStep s aggs tf sc rs = Except.ok out) :
    List.Forall₂ scoreLE out rs := by
  unfold capHCStep at h
  rcases hc : lookupCell aggs tf sc with _ | (_ | cell) <;> rw [hc] at h
  · cases h
  · cases h
  · injection h with h
    subst h
    exact capNamesFold_le _ _ _ _ _

/-- The HIGHEST_CONTRIBUTORS loop over all (time-frame, scope) pairs
never raises a score when it succeeds. -/
theorem capHC_foldlM_le :
    ∀ (pairs : List (String × String)) (s : Scenario)
      (aggs : List (String × List (String × Option CellResult)))
      (rs out : List TargetRow),
      pairs.foldlM (fun rs p => capHCStep s aggs p.1 p.2 rs) rs = Except.ok out →
      List.Forall₂ scoreLE out rs := by
  intro pairs
  induction pairs with
  | nil =>
    intro s aggs rs out h
    simp only [List.foldlM_nil, pure] at h
    injection h with h
    subst h
    exact List.forall₂_same.mpr (fun x _ => le_refl _)
  | cons p ps ih =>
    intro s aggs rs out h
    rw [List.foldlM_cons] at h
    rcases hstep : capHCStep s aggs p.1 p.2 rs with e | rs' <;> rw [hstep] at h
    · simp only [Bind.bind, Except.bind] at h
      cases h
    · simp only [Bind.bind, Except.bind] at h
      exact forall₂_scoreLE_trans (ih s aggs rs' out h)
        (capHCStep_le s aggs p.1 p.2 rs rs' hstep)

/-- Claim C2: for every scored table, every active scenario and every
row, the temperature score after `cap_scores` is at most the temperature
score before it (row-wise `scoreLE` between the output and input
tables). -/
theorem claim_C2 (scenario : Option Scenario) (aggFn : AggFn) (vtf : List String)
    (scores out : List TargetRow)
    (h : cap_scores scenario aggFn vtf scores = Except.ok out) :
    List.Forall₂ scoreLE out scores := by
  rcases scenario with _ | ⟨st, et⟩
  · injection h with h
    subst h
    exact List.forall₂_same.mpr (fun x _ => le_refl _)
  · cases st with
    | TARGETS =>
      injection h with h
      subst h
      exact List.forall₂_same.mpr (fun x _ => le_refl _)
    | APPROVED_TARGETS =>
      injection h with h
      subst h
      apply forall₂_scoreLE_map
      intro r
      by_cases hr : r.target_reference_number.isSome
      · simp [scoreLE, hr, minCap_le]
      · simp [scoreLE, hr]
    | HIGHEST_CONTRIBUTORS =>
      exact capHC_foldlM_le _ _ _ _ _ h
    | HIGHEST_CONTRIBUTORS_APPROVED =>
      injection h with h
      subst h
      exact forall₂_scoreLE_trans
        (forall₂_scoreLE_map _ (fun r => by
          by_cases hr : r.engagement_target = some true
          · simp [scoreLE, hr, minCap_le]
          · simp [scoreLE, hr]) _)
        (forall₂_scoreLE_map _ (fun r => by simp [scoreLE]) _)

/-- Witness for C2: under the APPROVED_TARGETS scenario with engagement
SET_TARGETS (cap 2.0), a table with one score-3 row is capped to a
score-2 row, which scores no more than the input row. -/
theorem claim_C2_witness :
    List.Forall₂ scoreLE
      [{ baseRow with temperature_score := 2 }]
      [{ baseRow with temperature_score := 3 }] :=
  claim_C2 (some ⟨ScenarioType.APPROVED_TARGETS, EngagementType.SET_TARGETS⟩)
    equalWeightFn [] _ _ (by
      simp only [cap_scores, Scenario.get_score_cap, minCap, List.map]
      norm_num [baseRow, min_def])

/-- Summing a list scaled by a constant scales the sum. -/
theorem sum_map_mul_const (l : List ℚ) (c : ℚ) :
    (l.map (fun x => x * c)).sum = l.sum * c := by
  induction l with
  | nil => simp
  | cons a t ih => simp [ih, add_mul]

/-- Looking a key up in an association list built by pairing each key of
a list with a value function finds the value exactly for the keys of the
list. -/
theorem lookup_map_cases {β : Type} (f : String → β) (l : List String) (k : String) :
    (l.map (fun a => (a, f a))).lookup k = if k ∈ l then some (f k) else none := by
  induction l with
  | nil => simp
  | cons a t ih =>
    simp only [List.map, List.lookup]
    by_cases h : k = a
    · subst h
      simp
    · have hba : (k == a) = false := by simp [h]
      simp [hba, ih, List.mem_cons, h]

/-- Characterization of `aggregations[time_frame][scope]` on the result
of `aggregate_scores`: defined exactly for requested (or data-derived)
time frames and scope categories, and holding the cell value there. -/
theorem lookupCell_aggregate_general (aggFn : AggFn) (data : List TargetRow)
    (time_frames scope_categories : List String) (tf sc : String) :
    lookupCell (aggregate_scores aggFn data time_frames scope_categories) tf sc =
      if tf ∈ (if time_frames.isEmpty then (data.map (·.time_frame)).dedup
          else time_frames) then
        (if sc ∈ (if scope_categories.isEmpty then
              (data.map (·.scope_category)).dedup else scope_categories) then
          some (cell_value aggFn data tf sc)
        else none)
      else none := by
  unfold aggregate_scores lookupCell
  rw [lookup_map_cases (fun tf =>
    (if scope_categories.isEmpty then (data.map (·.scope_category)).dedup
      else scope_categories).map (fun sc => (sc, cell_value aggFn data tf sc)))]
  by_cases ht : tf ∈ (if time_frames.isEmpty then
      (data.map (·.time_frame)).dedup else time_frames)
  · rw [if_pos ht, if_pos ht]
    exact lookup_map_cases _ _ _
  · rw [if_neg ht, if_neg ht]

/-- Counterexample to claim C7 as stated: a non-empty cell holding a
single row whose weighted score is 0 (the score-0 row under an
equal-weighted primitive) has a zero weighted-score total, so the
relative contributions `w / (total / 100)` do not sum to 100. -/
theorem claim_C7_counterexample :
    ([baseRow] : List TargetRow) ≠ [] ∧
    ((get_aggregations equalWeightFn [baseRow]).2.1).sum ≠ 100 := by
  constructor
  · simp
  · simp [get_aggregations, equalWeightFn, baseRow]

/-- Claim C7, amended: for every cell slice, the per-row relative
contributions computed by `_get_aggregations` sum to 100 provided the
cell's weighted-score total is nonzero; the contributions list is sorted
by descending relative contribution; and an empty
(time-frame, scope-category) cell of `aggregate_scores` stores the
explicit null marker. -/
theorem claim_C7_amended (aggFn : AggFn) (data : List TargetRow) :
    ((aggFn (fun r => r.temperature_score) data).sum ≠ 0 →
      ((get_aggregations aggFn data).2.1).sum = 100) ∧
    List.Sorted contribGE (get_aggregations aggFn data).1.contributions ∧
    (∀ (time_frames scope_categories : List String) (tf sc : String),
      tf ∈ (if time_frames.isEmpty then (data.map (·.time_frame)).dedup
          else time_frames) →
      sc ∈ (if scope_categories.isEmpty then
          (data.map (·.scope_category)).dedup else scope_categories) →
      data.filter (fun r => r.time_frame = tf ∧ r.scope_category = sc) = [] →
      lookupCell (aggregate_scores aggFn data time_frames scope_categories)
        tf sc = some none) := by
  refine ⟨?_, ?_, ?_⟩
  · intro hS
    simp only [get_aggregations]
    have hmap : (aggFn (fun r => r.temperature_score) data).map
        (fun w => w / ((aggFn (fun r => r.temperature_score) data).sum / 100)) =
        (aggFn (fun r => r.temperature_score) data).map
          (fun w => w * (100 / (aggFn (fun r => r.temperature_score) data).sum)) :=
      List.map_congr_left (fun w _ => by
        rw [div_div_eq_mul_div, mul_div_assoc])
    rw [hmap, sum_map_mul_const]
    field_simp
  · simp only [get_aggregations]
    exact List.sorted_insertionSort contribGE _
  · intro time_frames scope_categories tf sc ht hs hf
    rw [lookupCell_aggregate_general, if_pos ht, if_pos hs]
    simp only [cell_value]
    rw [hf]
    rfl

/-- Witness for the amended C7: a one-row cell with score 2 under the
equal-weighted primitive has relative contributions summing to 100, and
requesting the mid time frame over a short-time-frame table stores the
explicit null marker for the empty (mid, s1s2) cell. -/
theorem claim_C7_witness :
    ((get_aggregations equalWeightFn
      [{ baseRow with temperature_score := 2 }]).2.1).sum = 100 ∧
    lookupCell (aggregate_scores equalWeightFn
      [{ baseRow with temperature_score := 2 }] ["mid"] []) "mid" "s1s2" =
      some none :=
  ⟨(claim_C7_amended equalWeightFn [{ baseRow with temperature_score := 2 }]).1
      (by norm_num [equalWeightFn, baseRow]),
   (claim_C7_amended equalWeightFn [{ baseRow with temperature_score := 2 }]).2.2
      ["mid"] [] "mid" "s1s2" (by simp) (by simp [baseRow]) (by simp [baseRow])⟩

/-- The absolute-target marker always maps to the Kyoto-gases pathway,
whatever the intensity metric. -/
theorem get_target_mapping_abs (m : Option String) :
    get_target_mapping VALUE_TARGET_REFERENCE_ABSOLUTE m =
      some "Emissions|Kyoto Gases" := by
  unfold get_target_mapping
  rw [if_neg (by decide)]

/-- The reduction-rate assignment leaves the reference number and the
SR15 mapping of a row unchanged. -/
theorem rate_row_fields (r r' : TargetRow) (h : rate_row r = Except.ok r') :
    r'.target_reference_number = r.target_reference_number ∧
    r'.sr15 = r.sr15 := by
  unfold rate_row at h
  rcases ha : get_annual_reduction_rate r.reduction_ambition r.start_year
      r.end_year with e | a <;> rw [ha] at h <;>
    simp only [Bind.bind, Except.bind, pure, Except.pure] at h
  · cases h
  · injection h with h
    subst h
    exact ⟨rfl, rfl⟩

/-- Every row surviving the reduction-rate stage keeps the reference
number and SR15 mapping of some input row. -/
theorem reduction_rate_stage_mem :
    ∀ (l l' : List TargetRow), reduction_rate_stage l = Except.ok l' →
      ∀ r ∈ l', ∃ r₀ ∈ l,
        r.target_reference_number = r₀.target_reference_number ∧
        r.sr15 = r₀.sr15 := by
  intro l
  induction l with
  | nil =>
    intro l' h r hr
    unfold reduction_rate_stage at h
    rw [List.mapM_nil] at h
    injection h with h
    subst h
    cases hr
  | cons a t ih =>
    intro l' h r hr
    unfold reduction_rate_stage at h
    rw [List.mapM_cons] at h
    rcases ha : rate_row a with e | b <;> rw [ha] at h <;>
      simp only [Bind.bind, Except.bind, pure, Except.pure] at h
    · cases h
    · rcases htl : t.mapM rate_row with e | bs <;> rw [htl] at h <;>
        simp only [Bind.bind, Except.bind, pure, Except.pure] at h
      · cases h
      · injection h with h
        subst h
        rcases List.mem_cons.mp hr with rfl | hr'
        · obtain ⟨h₁, h₂⟩ := rate_row_fields a r ha
          exact ⟨a, List.mem_cons_self a t, h₁, h₂⟩
        · obtain ⟨r₀, hr₀, hh⟩ := ih bs htl r hr'
          exact ⟨r₀, List.mem_cons_of_mem a hr₀, hh⟩

/-- Every row produced by the regression left-join keeps the reference
number and SR15 mapping of some input row. -/
theorem merge_regression_mem (slopeMap : String → Option String)
    (reg : List RegressionEntry) (l : List TargetRow) :
    ∀ r ∈ merge_regression slopeMap reg l,
      ∃ r₀ ∈ l, r.target_reference_number = r₀.target_reference_number ∧
        r.sr15 = r₀.sr15 := by
  intro r hr
  unfold merge_regression at hr
  rw [List.mem_flatMap] at hr
  obtain ⟨r₀, hr₀, hmem⟩ := hr
  refine ⟨r₀, hr₀, ?_⟩
  split at hmem
  · rw [List.mem_singleton] at hmem
    subst hmem
    exact ⟨rfl, rfl⟩
  · rw [List.mem_map] at hmem
    obtain ⟨e, _, rfl⟩ := hmem
    exact ⟨rfl, rfl⟩

/-- Claim C9: `_prepare_data` first replaces every null
target-reference-number with the absolute marker, so (a) no row of the
replaced table has a null reference number, (b) an originally-null row
carries the absolute marker and is mapped to the absolute Kyoto-gases
pathway by the SR15 stage, (c) no row of the fully scored pre-cap table
has a null reference number, and (d) under the APPROVED_TARGETS scenario
the cap is therefore applied to every row of the prepared table. -/
theorem claim_C9 (fallback : ℚ) (et : EngagementType)
    (slopeMap : String → Option String) (reg : List RegressionEntry)
    (aggFn : AggFn) (vtf : List String) (rows r3 : List TargetRow)
    (hr3 : reduction_rate_stage (sr15_stage (replace_trn_stage rows)) =
      Except.ok r3) :
    (∀ r ∈ replace_trn_stage rows, r.target_reference_number ≠ none) ∧
    (∀ r₀ : TargetRow, r₀.target_reference_number = none →
      (sr15_row (replace_trn_row r₀)).target_reference_number =
        some VALUE_TARGET_REFERENCE_ABSOLUTE ∧
      (sr15_row (replace_trn_row r₀)).sr15 = some "Emissions|Kyoto Gases") ∧
    (∀ r ∈ score_stage fallback (merge_regression slopeMap reg r3),
      r.target_reference_number ≠ none) ∧
    prepare_data fallback (some ⟨ScenarioType.APPROVED_TARGETS, et⟩) slopeMap
        reg aggFn vtf rows =
      Except.ok ((score_stage fallback (merge_regression slopeMap reg r3)).map
        (fun r =>
          { r with
            temperature_score := minCap r.temperature_score
              (Scenario.get_score_cap ⟨ScenarioType.APPROVED_TARGETS, et⟩) })) := by
  have hrep : ∀ r ∈ replace_trn_stage rows, r.target_reference_number ≠ none := by
    intro r hr
    rw [replace_trn_stage, List.mem_map] at hr
    obtain ⟨r₀, _, rfl⟩ := hr
    simp [replace_trn_row]
  have hsr : ∀ r ∈ sr15_stage (replace_trn_stage rows),
      r.target_reference_number ≠ none := by
    intro r hr
    rw [sr15_stage, List.mem_map] at hr
    obtain ⟨q, hq, rfl⟩ := hr
    exact hrep q hq
  have hpre : ∀ r ∈ score_stage fallback (merge_regression slopeMap reg r3),
      r.target_reference_number ≠ none := by
    intro r hr
    rw [score_stage, List.mem_map] at hr
    obtain ⟨r₄, h₄, rfl⟩ := hr
    obtain ⟨r₃, h₃, htrn, _⟩ := merge_regression_mem slopeMap reg r3 r₄ h₄
    obtain ⟨q, hq, htrn', _⟩ :=
      reduction_rate_stage_mem (sr15_stage (replace_trn_stage rows)) r3 hr3 r₃ h₃
    have hsc : (score_row fallback r₄).target_reference_number =
        r₄.target_reference_number := rfl
    rw [hsc, htrn, htrn']
    exact hsr q hq
  refine ⟨hrep, ?_, hpre, ?_⟩
  · intro r₀ h0
    refine ⟨?_, ?_⟩
    · simp [sr15_row, replace_trn_row, h0]
    · simp [sr15_row, replace_trn_row, h0, get_target_mapping_abs]
  · unfold prepare_data
    rw [hr3]
    simp only [Bind.bind, Except.bind]
    have hcap2 : cap_scores (some ⟨ScenarioType.APPROVED_TARGETS, et⟩) aggFn vtf
        (score_stage fallback (merge_regression slopeMap reg r3)) =
      Except.ok ((score_stage fallback (merge_regression slopeMap reg r3)).map
        (fun r => if r.target_reference_number.isSome then
          { r with
            temperature_score := minCap r.temperature_score
              (Scenario.get_score_cap ⟨ScenarioType.APPROVED_TARGETS, et⟩) }
          else r)) := rfl
    rw [hcap2]
    refine congrArg Except.ok ?_
    apply List.map_congr_left
    intro r hrmem
    rw [if_pos (Option.isSome_iff_ne_none.mpr (hpre r hrmem))]

/-- Witness for C9: a single row whose reference number is null is
replaced by the absolute marker, mapped to the Kyoto-gases pathway, and
the prepared table carries no null reference number. -/
theorem claim_C9_witness :
    (∀ r ∈ replace_trn_stage [c9Row], r.target_reference_number ≠ none) ∧
    (sr15_row (replace_trn_row c9Row)).target_reference_number =
      some VALUE_TARGET_REFERENCE_ABSOLUTE ∧
    (sr15_row (replace_trn_row c9Row)).sr15 = some "Emissions|Kyoto Gases" :=
  have h := claim_C9 3 EngagementType.SET_TARGETS slopeMapSample [] equalWeightFn
    [] [c9Row] (sr15_stage (replace_trn_stage [c9Row])) rfl
  ⟨h.1, (h.2.1 c9Row rfl).1, (h.2.1 c9Row rfl).2⟩

/-- One HIGHEST_CONTRIBUTORS cell step succeeds exactly when the
two-level dictionary indexing finds a populated (non-`None`) cell; the
outcome does not depend on the accumulated row table. -/
theorem capHCStep_ok_char (s : Scenario)
    (aggs : List (String × List (String × Option CellResult)))
    (tf sc : String) (rs : List TargetRow) :
    (∃ out, capHCStep s aggs tf sc rs = Except.ok out) ↔
    (∃ c, lookupCell aggs tf sc = some (some c)) := by
  unfold capHCStep
  rcases h : lookupCell aggs tf sc with _ | (_ | cell) <;> simp

/-- The HIGHEST_CONTRIBUTORS loop succeeds exactly when every visited
(time-frame, scope-category) pair indexes a populated cell. -/
theorem capHC_foldlM_ok_iff (s : Scenario)
    (aggs : List (String × List (String × Option CellResult))) :
    ∀ (pairs : List (String × String)) (rs : List TargetRow),
      (∃ out, pairs.foldlM (fun rs p => capHCStep s aggs p.1 p.2 rs) rs =
        Except.ok out) ↔
      (∀ p ∈ pairs, ∃ c, lookupCell aggs p.1 p.2 = some (some c)) := by
  intro pairs
  induction pairs with
  | nil =>
    intro rs
    simp only [List.foldlM_nil, List.not_mem_nil, false_implies, implies_true,
      iff_true]
    exact ⟨rs, rfl⟩
  | cons p ps ih =>
    intro rs
    rw [List.foldlM_cons]
    constructor
    · rintro ⟨out, hout⟩
      rcases hstep : capHCStep s aggs p.1 p.2 rs with e | rs' <;>
        rw [hstep] at hout <;> simp only [Bind.bind, Except.bind] at hout
      · cases hout
      · intro q hq
        rcases List.mem_cons.mp hq with rfl | hq'
        · exact (capHCStep_ok_char s aggs q.1 q.2 rs).mp ⟨rs', hstep⟩
        · exact ((ih rs').mp ⟨out, hout⟩) q hq'
    · intro hall
      obtain ⟨rs', hstep⟩ := (capHCStep_ok_char s aggs p.1 p.2 rs).mpr
        (hall p (List.mem_cons_self p ps))
      rw [hstep]
      simp only [Bind.bind, Except.bind]
      exact (ih rs').mpr (fun q hq => hall q (List.mem_cons_of_mem p hq))

/-- Claim C10: under the HIGHEST_CONTRIBUTORS scenario, `cap_scores`
succeeds exactly when, for every time frame of the configured fixed list
and every scope category present in the data, the
(time-frame, scope-category) cell contains at least one row; an empty
cell (a `None` cell or a time frame absent from the aggregation keys)
makes the indexing fail. -/
theorem claim_C10 (et : EngagementType) (aggFn : AggFn) (vtf : List String)
    (scores : List TargetRow) :
    (∃ out, cap_scores (some ⟨ScenarioType.HIGHEST_CONTRIBUTORS, et⟩) aggFn vtf
        scores = Except.ok out) ↔
    (∀ tf ∈ vtf, ∀ sc ∈ (scores.map (·.scope_category)).dedup,
      scores.filter (fun r => r.time_frame = tf ∧ r.scope_category = sc) ≠ []) := by
  rw [show cap_scores (some ⟨ScenarioType.HIGHEST_CONTRIBUTORS, et⟩) aggFn vtf
      scores =
    (vtf.flatMap (fun tf => ((scores.map (·.scope_category)).dedup).map
        (fun sc => (tf, sc)))).foldlM
      (fun rs p => capHCStep ⟨ScenarioType.HIGHEST_CONTRIBUTORS, et⟩
        (aggregate_scores aggFn scores [] []) p.1 p.2 rs) scores from rfl]
  rw [capHC_foldlM_ok_iff]
  constructor
  · intro h tf htf sc hsc
    obtain ⟨c, hc⟩ := h (tf, sc) (by
      rw [List.mem_flatMap]
      exact ⟨tf, htf, List.mem_map.mpr ⟨sc, hsc, rfl⟩⟩)
    rw [lookupCell_aggregate_general] at hc
    intro hnil
    by_cases h1 : tf ∈ (if ([] : List String).isEmpty then
        (scores.map (·.time_frame)).dedup else [])
    · rw [if_pos h1] at hc
      by_cases h2 : sc ∈ (if ([] : List String).isEmpty then
          (scores.map (·.scope_category)).dedup else [])
      · rw [if_pos h2] at hc
        injection hc with hc
        simp only [cell_value] at hc
        rw [hnil] at hc
        cases hc
      · rw [if_neg h2] at hc
        cases hc
    · rw [if_neg h1] at hc
      cases hc
  · intro h p hp
    rw [List.mem_flatMap] at hp
    obtain ⟨tf, htf, hp'⟩ := hp
    rw [List.mem_map] at hp'
    obtain ⟨sc, hsc, rfl⟩ := hp'
    have hfil := h tf htf sc hsc
    obtain ⟨r, hrmem⟩ := List.exists_mem_of_ne_nil _ hfil
    rw [List.mem_filter] at hrmem
    obtain ⟨hrs, hrp⟩ := hrmem
    rw [decide_eq_true_eq] at hrp
    have htfm : tf ∈ (scores.map (·.time_frame)).dedup :=
      List.mem_dedup.mpr (List.mem_map.mpr ⟨r, hrs, hrp.1⟩)
    rw [lookupCell_aggregate_general]
    rw [if_pos (show tf ∈ (if ([] : List String).isEmpty then
        (scores.map (·.time_frame)).dedup else []) from htfm)]
    rw [if_pos (show sc ∈ (if ([] : List String).isEmpty then
        (scores.map (·.scope_category)).dedup else []) from hsc)]
    have hcv : ∃ v, cell_value aggFn scores tf sc = some v := by
      simp only [cell_value]
      rw [if_neg (fun hemp => hfil (List.isEmpty_iff.mp hemp))]
      exact ⟨_, rfl⟩
    obtain ⟨v, hv⟩ := hcv
    exact ⟨v, by rw [hv]⟩

/-- Witness for C10: with a one-row table whose (short, s1s2) cell is
populated and the fixed time-frame list `["short"]`, the
HIGHEST_CONTRIBUTORS capper succeeds. -/
theorem claim_C10_witness :
    ∃ out, cap_scores (some ⟨ScenarioType.HIGHEST_CONTRIBUTORS,
        EngagementType.SET_TARGETS⟩) equalWeightFn ["short"] [baseRow] =
      Except.ok out :=
  (claim_C10 EngagementType.SET_TARGETS equalWeightFn ["short"] [baseRow]).mpr
    (by decide)

end SBTi
